import Mathlib

/-!
Verification of the FunWine frontend authentication-session slice.

The definitions below are a shallow embedding of:
- the `User` record of `types/auth.ts`;
- the `AuthProvider` session store of `context/AuthContext.tsx`
  (operations `fetchMe`, `login`, `logout`, initial state);
- the route guard `app/ClientShell.tsx` (public-route matching and
  the choice between loading placeholder, passthrough and the shell);
- the `Sidebar` navigation component (feature-gated link suppression).

Asynchronous operations are modelled as pure state transformers that are
additionally given the outcome of their HTTP round-trips (success payload
or an error record mirroring an axios error object).
-/

/-- Frontend identity record, mirroring the `User` interface of
`types/auth.ts`.  Optional fields of the interface are `Option`s;
`ui_features` is the `Record<string, boolean>` feature-flag mapping. -/
structure User where
  id : Nat
  username : String
  email : Option String
  display_name : Option String
  is_active : Bool
  created_at : Option String
  ui_theme : String
  ui_sidebar : Bool
  ui_navbar : Bool
  ui_font_scale : String
  ui_simple_mode : Bool
  ui_features : List (String × Bool)
deriving DecidableEq

/-- An axios-style error object: `status` is `err.response?.status`
(`none` when there is no response, e.g. a network failure),
`detail` is `err.response?.data?.detail`, `message` is `err.message`. -/
structure HttpError where
  status : Option Nat
  detail : Option String
  message : String
deriving DecidableEq

/-- Session state held by `AuthProvider`: `user`, `loading`, `error`,
`theme` (the four `useState` cells). -/
structure SessionState where
  user : Option User
  loading : Bool
  error : Option String
  theme : String
deriving DecidableEq

/-- Initial state of `AuthProvider`:
`user = null`, `loading = true`, `error = null`, `theme = "theme-light"`. -/
def initState : SessionState :=
  { user := none, loading := true, error := none, theme := "theme-light" }

/-- JavaScript `a || b || c` over the chain
`err?.response?.data?.detail || err.message || fallback`:
pick `detail` when present and non-empty, else `message` when non-empty,
else the fallback literal. -/
def firstTruthy (detail : Option String) (message fallback : String) : String :=
  match detail with
  | some d => if d = "" then (if message = "" then fallback else message) else d
  | none => if message = "" then fallback else message

/-- The guard `err?.response?.status && err.response.status !== 401`
of `fetchMe`'s catch block: true when a response status exists, is truthy
(non-zero) and differs from 401. -/
def errStatusNon401 (e : HttpError) : Bool :=
  match e.status with
  | some st => st != 0 && st != 401
  | none => false

/-- `setLoading(true); setError(null);` — the common start of all three
session-store operations. -/
def opStart (s : SessionState) : SessionState :=
  { s with loading := true, error := none }

/-- `fetchMe` of `AuthContext.tsx`, given the outcome of
`GET /auth/me`.  Returns the resulting state and the function's return
value (`resp.data` on success, `null` on any failure). -/
def fetchMe (o : Except HttpError User) (s : SessionState) :
    SessionState × Option User :=
  let s0 := opStart s
  match o with
  | .ok u =>
      ({ s0 with
          user := some u
          theme := if u.ui_theme = "" then s0.theme else u.ui_theme
          loading := false },
       some u)
  | .error e =>
      ({ s0 with
          user := none
          error :=
            if errStatusNon401 e then
              some (firstTruthy e.detail e.message "Failed to fetch user")
            else none
          loading := false },
       none)

/-- Outcome of a `login` run: either the `POST /auth/login` request
rejects, or it succeeds and the nested `fetchMe` sees its own outcome. -/
inductive LoginOutcome where
  | postFail (e : HttpError)
  | postOk (me : Except HttpError User)

/-- The `Error("Login succeeded but failed to load user")` thrown when the
post-login identity fetch returns `null`: a bare JS `Error`, so no
response status and no server detail. -/
def inconsistencyError : HttpError :=
  { status := none, detail := none
    message := "Login succeeded but failed to load user" }

/-- `login` of `AuthContext.tsx`, given the outcome of its HTTP
round-trips.  Returns the resulting state and either the thrown error or
the returned identity. -/
def login (o : LoginOutcome) (s : SessionState) :
    SessionState × Except HttpError User :=
  let s0 := opStart s
  match o with
  | .postFail e =>
      ({ s0 with
          user := none
          error := some (firstTruthy e.detail e.message "Login failed")
          loading := false },
       .error e)
  | .postOk me =>
      let r := fetchMe me s0
      match r.2 with
      | some u => ({ r.1 with loading := false }, .ok u)
      | none =>
          ({ r.1 with
              user := none
              error := some (firstTruthy none inconsistencyError.message
                "Login failed")
              loading := false },
           .error inconsistencyError)

/-- `logout` of `AuthContext.tsx`, given the outcome of
`POST /auth/logout`.  Returns the resulting state and the re-raised error,
when any. -/
def logout (o : Except HttpError Unit) (s : SessionState) :
    SessionState × Option HttpError :=
  let s0 := opStart s
  match o with
  | .ok _ =>
      ({ s0 with user := none, theme := "theme-light", loading := false },
       none)
  | .error e =>
      ({ s0 with
          error := some (firstTruthy e.detail e.message "Logout failed")
          loading := false },
       some e)

/-- One completed session-store operation together with the outcome of its
HTTP round-trips. -/
inductive Op where
  | fetchOp (o : Except HttpError User)
  | loginOp (o : LoginOutcome)
  | logoutOp (o : Except HttpError Unit)

/-- State after one completed operation. -/
def stepOp (s : SessionState) (op : Op) : SessionState :=
  match op with
  | .fetchOp o => (fetchMe o s).1
  | .loginOp o => (login o s).1
  | .logoutOp o => (logout o s).1

/-- State after a sequence of completed operations, starting from the
provider's initial state. -/
def runOps (ops : List Op) : SessionState :=
  ops.foldl stepOp initState

/-- The fixed `publicRoutes` list of `ClientShell.tsx`. -/
def publicRoutes : List String := ["/login", "/register", "/", "/public"]

/-- JS `s.startsWith(p)`: the characters of `p` are an initial segment of
the characters of `s`. -/
def strStartsWith (s p : String) : Bool :=
  s.data.take p.data.length == p.data

/-- `publicRoutes.some(route => pathname === route ||
pathname.startsWith(route + "/"))` of `ClientShell.tsx`. -/
def isPublic (pathname : String) : Bool :=
  publicRoutes.any fun route =>
    pathname == route || strStartsWith pathname (route ++ "/")

/-- A region of the authenticated shell's markup: the `<aside>` with the
sidebar, the `<header>` with the navbar, and the `<main>` wrapping the
page children. -/
inductive Region where
  | sidebarRegion
  | navbarRegion
  | mainRegion
deriving DecidableEq

/-- The regions the authenticated shell renders for a given identity:
the sidebar when `user.ui_sidebar !== false`, the navbar when
`user.ui_navbar !== false`, and always the main content. -/
def shellRegions (u : User) : List Region :=
  (if u.ui_sidebar != false then [Region.sidebarRegion] else [])
    ++ (if u.ui_navbar != false then [Region.navbarRegion] else [])
    ++ [Region.mainRegion]

/-- What `ClientShell` renders: the loading placeholder, the bare
`children` passthrough, or the authenticated shell with its regions. -/
inductive Rendering where
  | loadingPlaceholder
  | passthrough
  | shell (regions : List Region)
deriving DecidableEq

/-- The render decision of `ClientShell.tsx`: with `loading` true the
placeholder; then `if (isPublic || !user) return children`; otherwise the
authenticated shell. -/
def clientShell (s : SessionState) (pathname : String) : Rendering :=
  if s.loading then Rendering.loadingPlaceholder
  else
    match s.user with
    | none => Rendering.passthrough
    | some u =>
        if isPublic pathname then Rendering.passthrough
        else Rendering.shell (shellRegions u)

/-- One navigation entry of the Sidebar's `links` array. -/
structure NavLink where
  href : String
  label : String
  key : String
deriving DecidableEq

/-- The fixed `links` array of `Sidebar`. -/
def links : List NavLink :=
  [{ href := "/dashboard", label := "Dashboard", key := "dashboard" },
   { href := "/intake", label := "Intake", key := "intake" },
   { href := "/blocks", label := "Blocks", key := "blocks" },
   { href := "/reports", label := "Reports", key := "reports" }]

/-- JS truthiness of `user?.ui_features?.[key]`: true exactly when the
mapping has the key with value `true`. -/
def featureTruthy (fs : List (String × Bool)) (k : String) : Bool :=
  match fs.lookup k with
  | some b => b
  | none => false

/-- The Sidebar's suppression test for one entry:
`user?.ui_simple_mode && !user?.ui_features?.[l.key]`. -/
def linkSuppressed (u : User) (l : NavLink) : Bool :=
  u.ui_simple_mode && !(featureTruthy u.ui_features l.key)

/-- The entries the Sidebar renders for a given identity: the fixed list
with suppressed entries mapped to `null` (dropped). -/
def renderedLinks (u : User) : List NavLink :=
  links.filter fun l => !(linkSuppressed u l)

/-! Concrete fixtures used by counterexamples and witnesses. -/

/-- A fully populated identity with a dark theme. -/
def aliceDark : User :=
  { id := 1, username := "alice", email := none, display_name := none,
    is_active := true, created_at := none, ui_theme := "theme-dark",
    ui_sidebar := true, ui_navbar := true, ui_font_scale := "md",
    ui_simple_mode := false, ui_features := [] }

/-- The same identity with an empty `ui_theme` string. -/
def aliceBlankTheme : User := { aliceDark with ui_theme := "" }

/-- A plain HTTP 401 response without a detail body. -/
def err401 : HttpError :=
  { status := some 401, detail := none
    message := "Request failed with status code 401" }

/-- A transport failure with no response at all (e.g. the server is
unreachable): axios raises an error with a message but no `response`. -/
def networkError : HttpError :=
  { status := none, detail := none, message := "Network Error" }

/-- HTTP 401 from the login endpoint with body
`{"detail":"bad credentials"}`. -/
def badCredentials : HttpError :=
  { status := some 401, detail := some "bad credentials"
    message := "Request failed with status code 401" }

/-- A server error response (HTTP 500) without a detail body. -/
def serverError : HttpError :=
  { status := some 500, detail := none
    message := "Request failed with status code 500" }

/-- A settled session state with `aliceDark` logged in. -/
def stateAliceDark : SessionState :=
  { user := some aliceDark, loading := false, error := none,
    theme := "theme-dark" }

/-! Claim theorems. -/

/-- Claim C1, counterexample: when the fetched identity's `ui_theme` is the
empty string, `fetchMe` skips `setTheme` (the guard
`if (resp.data.ui_theme)` is falsy), so after a fully successful login the
theme is still the initial `"theme-light"` and differs from the fetched
identity's `ui_theme`. -/
theorem c1_counterexample :
    (login (LoginOutcome.postOk (Except.ok aliceBlankTheme)) initState).2
      = Except.ok aliceBlankTheme
    ∧ (login (LoginOutcome.postOk (Except.ok aliceBlankTheme))
        initState).1.theme ≠ aliceBlankTheme.ui_theme := by
  refine ⟨rfl, ?_⟩
  decide

/-- Claim C1 (amended): after a login whose POST succeeds and whose
identity fetch succeeds, the state has `loading = false`, `error` absent
and the fetched identity; the theme equals the identity's `ui_theme` when
that string is non-empty, and is otherwise left unchanged. -/
theorem c1_login_fetch_success (s : SessionState) (u : User) :
    (login (LoginOutcome.postOk (Except.ok u)) s).2 = Except.ok u
    ∧ (login (LoginOutcome.postOk (Except.ok u)) s).1.loading = false
    ∧ (login (LoginOutcome.postOk (Except.ok u)) s).1.error = none
    ∧ (login (LoginOutcome.postOk (Except.ok u)) s).1.user = some u
    ∧ (login (LoginOutcome.postOk (Except.ok u)) s).1.theme
        = (if u.ui_theme = "" then s.theme else u.ui_theme) :=
  ⟨rfl, rfl, rfl, rfl, rfl⟩

/-- Claim C2, counterexample: a transport failure with no response at all
is not an authentication-failure response, yet `fetchMe` leaves `error`
absent, because its catch guard `err?.response?.status && ...` is falsy
when there is no response. -/
theorem c2_counterexample :
    networkError.status ≠ some 401
    ∧ (fetchMe (Except.error networkError) initState).1.user = none
    ∧ (fetchMe (Except.error networkError) initState).1.error = none := by
  refine ⟨?_, rfl, rfl⟩
  decide

/-- Claim C2 (amended): any failed `fetchMe` clears the identity; the
error message is set exactly when the failure carries a response whose
status is truthy (non-zero) and different from 401; in particular a 401
response and a failure without a response both leave `error` absent. -/
theorem c2_fetch_failure (s : SessionState) (e : HttpError) :
    (fetchMe (Except.error e) s).1.user = none
    ∧ ((fetchMe (Except.error e) s).1.error = none
        ↔ errStatusNon401 e = false)
    ∧ (errStatusNon401 e = true →
        (fetchMe (Except.error e) s).1.error
          = some (firstTruthy e.detail e.message "Failed to fetch user"))
    ∧ (e.status = some 401 → (fetchMe (Except.error e) s).1.error = none) := by
  refine ⟨rfl, ?_, ?_, ?_⟩
  · cases h : errStatusNon401 e <;> simp [fetchMe, opStart, h]
  · intro h
    simp [fetchMe, opStart, h]
  · intro h
    have h2 : errStatusNon401 e = false := by
      simp [errStatusNon401, h]
    simp [fetchMe, opStart, h2]

/-- Claim C2 witness: a 500 response with no body detail sets the error to
the transport error text. -/
theorem c2_fetch_failure_witness :
    (fetchMe (Except.error serverError) initState).1.error
      = some (firstTruthy serverError.detail serverError.message
          "Failed to fetch user") :=
  (c2_fetch_failure initState serverError).2.2.1 (by decide)

/-- Theme coherence: whenever an identity is present whose `ui_theme` is
non-empty, the theme cell holds that `ui_theme`. -/
def themeCoherent (s : SessionState) : Prop :=
  ∀ u : User, s.user = some u → u.ui_theme ≠ "" → s.theme = u.ui_theme

/-- Every single operation preserves theme coherence. -/
theorem themeCoherent_stepOp (s : SessionState) (op : Op)
    (h : themeCoherent s) : themeCoherent (stepOp s op) := by
  intro u hu hne
  cases op with
  | fetchOp o =>
      cases o with
      | ok v =>
          simp only [stepOp, fetchMe, opStart] at hu ⊢
          cases hu
          simp [hne]
      | error e =>
          simp [stepOp, fetchMe, opStart] at hu
  | loginOp o =>
      cases o with
      | postFail e =>
          simp [stepOp, login, opStart] at hu
      | postOk me =>
          cases me with
          | ok v =>
              simp only [stepOp, login, fetchMe, opStart] at hu ⊢
              cases hu
              simp [hne]
          | error e =>
              simp [stepOp, login, fetchMe, opStart] at hu
  | logoutOp o =>
      cases o with
      | ok v =>
          simp [stepOp, logout, opStart] at hu
      | error e =>
          simp only [stepOp, logout, opStart] at hu ⊢
          exact h u hu hne

/-- Theme coherence is preserved along any fold of operations. -/
theorem themeCoherent_foldl (ops : List Op) (s : SessionState)
    (h : themeCoherent s) : themeCoherent (ops.foldl stepOp s) := by
  induction ops generalizing s with
  | nil => exact h
  | cons op rest ih => exact ih (stepOp s op) (themeCoherent_stepOp s op h)

/-- Claim C3, counterexample: run a successful fetch of an identity with
theme `"theme-dark"` and then a fetch that fails with 401 (session
expired).  The identity is absent afterwards, but the theme is still
`"theme-dark"`, not the default `"theme-light"`: no operation but a
successful logout ever resets the theme. -/
theorem c3_counterexample :
    (runOps [Op.fetchOp (Except.ok aliceDark),
      Op.fetchOp (Except.error err401)]).user = none
    ∧ (runOps [Op.fetchOp (Except.ok aliceDark),
        Op.fetchOp (Except.error err401)]).theme ≠ "theme-light" := by
  refine ⟨rfl, ?_⟩
  decide

/-- Claim C3 (amended): over all operation sequences from the initial
state, whenever an identity with a non-empty `ui_theme` is present the
theme equals that `ui_theme`; the theme is the default `"theme-light"`
initially and after every successful logout; when the identity is absent
the theme may retain its previous value. -/
theorem c3_theme_invariant (ops : List Op) (u : User)
    (h1 : (runOps ops).user = some u) (h2 : u.ui_theme ≠ "") :
    (runOps ops).theme = u.ui_theme
    ∧ initState.theme = "theme-light"
    ∧ (runOps (ops ++ [Op.logoutOp (Except.ok ())])).theme
        = "theme-light" := by
  refine ⟨?_, rfl, ?_⟩
  · have hinv : themeCoherent (runOps ops) := by
      have hinit : themeCoherent initState := by
        intro v hv
        simp [initState] at hv
      exact themeCoherent_foldl ops initState hinit
    exact hinv u h1 h2
  · rw [runOps, List.foldl_append]
    rfl

/-- Claim C3 witness: after one successful fetch of `aliceDark` the theme
is her `ui_theme`. -/
theorem c3_theme_invariant_witness :
    (runOps [Op.fetchOp (Except.ok aliceDark)]).theme = aliceDark.ui_theme :=
  (c3_theme_invariant [Op.fetchOp (Except.ok aliceDark)] aliceDark
    (by decide) (by decide)).1

/-- Claim C4: `login` rejects exactly when the POST fails or the
subsequent identity fetch yields no identity.  On a POST transport
failure it clears the identity and records the server detail, falling
back to the transport error text; when the fetch yields no identity it
rejects with the inconsistency error.  Concretely, a 401 login response
with body detail `"bad credentials"` leaves `error = "bad credentials"`
and no identity. -/
theorem c4_login_rejects (s : SessionState) (o : LoginOutcome)
    (e1 e2 : HttpError) (u : User) :
    ((∃ v, (login o s).2 = Except.ok v)
      ↔ ∃ v, o = LoginOutcome.postOk (Except.ok v))
    ∧ (login (LoginOutcome.postOk (Except.ok u)) s).2 = Except.ok u
    ∧ (login (LoginOutcome.postFail e1) s).2 = Except.error e1
    ∧ (login (LoginOutcome.postFail e1) s).1.user = none
    ∧ (login (LoginOutcome.postFail e1) s).1.error
        = some (firstTruthy e1.detail e1.message "Login failed")
    ∧ (login (LoginOutcome.postOk (Except.error e2)) s).2
        = Except.error inconsistencyError
    ∧ (login (LoginOutcome.postOk (Except.error e2)) s).1.user = none
    ∧ (login (LoginOutcome.postOk (Except.error e2)) s).1.error
        = some inconsistencyError.message
    ∧ (login (LoginOutcome.postFail badCredentials) initState).1.error
        = some "bad credentials"
    ∧ (login (LoginOutcome.postFail badCredentials) initState).1.user
        = none := by
  refine ⟨?_, rfl, rfl, rfl, rfl, rfl, rfl,
    by simp [login, fetchMe, opStart, firstTruthy, inconsistencyError],
    by decide, rfl⟩
  cases o with
  | postFail e => simp [login, opStart]
  | postOk me => cases me <;> simp [login, fetchMe, opStart]

/-- Claim C5, counterexample: a sequence ending in a `logout` whose
request fails does not clear the identity — `logout`'s catch block only
records the error and re-raises, leaving `user` untouched. -/
theorem c5_counterexample :
    (runOps [Op.fetchOp (Except.ok aliceDark),
      Op.logoutOp (Except.error networkError)]).user = some aliceDark
    ∧ (runOps [Op.fetchOp (Except.ok aliceDark),
        Op.logoutOp (Except.error networkError)]).user ≠ none := by
  refine ⟨rfl, ?_⟩
  decide

/-- Claim C5 (amended): every sequence ending in a logout whose request
succeeds leaves the identity absent, the default theme and
`loading = false`; when the logout request fails, `loading` still ends
false, an error message is recorded, the failure is re-raised, and the
identity and the theme are left unchanged. -/
theorem c5_logout_sequences (ops : List Op) (s : SessionState)
    (e : HttpError) :
    (runOps (ops ++ [Op.logoutOp (Except.ok ())])).user = none
    ∧ (runOps (ops ++ [Op.logoutOp (Except.ok ())])).theme = "theme-light"
    ∧ (runOps (ops ++ [Op.logoutOp (Except.ok ())])).loading = false
    ∧ (runOps (ops ++ [Op.logoutOp (Except.error e)])).loading = false
    ∧ (runOps (ops ++ [Op.logoutOp (Except.error e)])).error
        = some (firstTruthy e.detail e.message "Logout failed")
    ∧ (runOps (ops ++ [Op.logoutOp (Except.error e)])).user
        = (runOps ops).user
    ∧ (runOps (ops ++ [Op.logoutOp (Except.error e)])).theme
        = (runOps ops).theme
    ∧ (logout (Except.error e) s).2 = some e := by
  simp only [runOps, List.foldl_append]
  exact ⟨rfl, rfl, rfl, rfl, rfl, rfl, rfl, rfl⟩

/-- Claim C6: an entry of the Sidebar's fixed list is rendered exactly
when it is not suppressed, suppression being `ui_simple_mode` true with no
truthy feature flag for the entry's key; with `ui_simple_mode` false every
entry is rendered regardless of the feature flags. -/
theorem c6_sidebar_suppression (u : User) (l : NavLink) :
    (l ∈ renderedLinks u ↔
      l ∈ links
        ∧ ¬(u.ui_simple_mode = true
              ∧ featureTruthy u.ui_features l.key = false))
    ∧ renderedLinks { u with ui_simple_mode := false } = links := by
  constructor
  · simp only [renderedLinks, List.mem_filter, linkSuppressed]
    constructor
    · rintro ⟨hmem, hcond⟩
      refine ⟨hmem, ?_⟩
      rintro ⟨hs, hf⟩
      rw [hs, hf] at hcond
      simp at hcond
    · rintro ⟨hmem, hcond⟩
      refine ⟨hmem, ?_⟩
      cases hs : u.ui_simple_mode with
      | false => simp [hs]
      | true =>
          cases hf : featureTruthy u.ui_features l.key with
          | false => exact absurd ⟨hs, hf⟩ hcond
          | true => simp [hs, hf]
  · simp [renderedLinks, linkSuppressed]

/-- Claim C7: a route is public exactly when it equals a configured public
route or starts with one followed by `"/"`; with `loading` false, the
guard passes the content through exactly when the route is public or no
identity is present, and renders the authenticated shell exactly when an
identity is present and the route is not public. -/
theorem c7_route_guard (s : SessionState) (p : String)
    (h : s.loading = false) :
    (isPublic p = true ↔
      ∃ r ∈ publicRoutes, p = r ∨ strStartsWith p (r ++ "/") = true)
    ∧ (clientShell s p = Rendering.passthrough ↔
        (isPublic p = true ∨ s.user = none))
    ∧ ((∃ rs, clientShell s p = Rendering.shell rs) ↔
        (isPublic p = false ∧ s.user ≠ none)) := by
  refine ⟨?_, ?_, ?_⟩
  · simp [isPublic, List.any_eq_true, beq_iff_eq]
  · cases hu : s.user with
    | none => simp [clientShell, h, hu]
    | some u =>
        cases hp : isPublic p <;> simp [clientShell, h, hu, hp]
  · cases hu : s.user with
    | none => simp [clientShell, h, hu]
    | some u =>
        cases hp : isPublic p <;> simp [clientShell, h, hu, hp]

/-- Claim C7 witness: with `aliceDark` logged in and `loading` false, the
guard classifies `"/dashboard"` and renders the shell accordingly. -/
theorem c7_route_guard_witness :
    (isPublic "/dashboard" = true ↔
      ∃ r ∈ publicRoutes,
        "/dashboard" = r ∨ strStartsWith "/dashboard" (r ++ "/") = true)
    ∧ (clientShell stateAliceDark "/dashboard" = Rendering.passthrough ↔
        (isPublic "/dashboard" = true ∨ stateAliceDark.user = none))
    ∧ ((∃ rs, clientShell stateAliceDark "/dashboard" = Rendering.shell rs) ↔
        (isPublic "/dashboard" = false ∧ stateAliceDark.user ≠ none)) :=
  c7_route_guard stateAliceDark "/dashboard" rfl

/-- Claim C8: whenever `loading` is true, the guard renders the loading
placeholder, regardless of the route and of the identity. -/
theorem c8_loading_placeholder (s : SessionState) (p : String)
    (h : s.loading = true) :
    clientShell s p = Rendering.loadingPlaceholder := by
  simp [clientShell, h]

/-- Claim C8 witness: the initial state is loading, so any route shows the
placeholder. -/
theorem c8_loading_placeholder_witness :
    clientShell initState "/dashboard" = Rendering.loadingPlaceholder :=
  c8_loading_placeholder initState "/dashboard" rfl

/-- Claim C9: when the authenticated shell is rendered, the sidebar region
appears exactly when `ui_sidebar` is not strictly `false`, the navbar
region exactly when `ui_navbar` is not strictly `false`, and the main
content region always. -/
theorem c9_shell_regions (s : SessionState) (p : String) (u : User)
    (h1 : s.loading = false) (h2 : s.user = some u)
    (h3 : isPublic p = false) :
    clientShell s p = Rendering.shell (shellRegions u)
    ∧ (Region.sidebarRegion ∈ shellRegions u ↔ u.ui_sidebar ≠ false)
    ∧ (Region.navbarRegion ∈ shellRegions u ↔ u.ui_navbar ≠ false)
    ∧ Region.mainRegion ∈ shellRegions u := by
  refine ⟨by simp [clientShell, h1, h2, h3], ?_, ?_, ?_⟩
  · cases hs : u.ui_sidebar <;> cases hn : u.ui_navbar <;>
      simp [shellRegions, hs, hn]
  · cases hs : u.ui_sidebar <;> cases hn : u.ui_navbar <;>
      simp [shellRegions, hs, hn]
  · cases hs : u.ui_sidebar <;> cases hn : u.ui_navbar <;>
      simp [shellRegions, hs, hn]

/-- Claim C9 witness: with `aliceDark` (both flags true) on a non-public
route, the shell shows sidebar, navbar and main content. -/
theorem c9_shell_regions_witness :
    clientShell stateAliceDark "/dashboard"
      = Rendering.shell (shellRegions aliceDark)
    ∧ (Region.sidebarRegion ∈ shellRegions aliceDark ↔
        aliceDark.ui_sidebar ≠ false)
    ∧ (Region.navbarRegion ∈ shellRegions aliceDark ↔
        aliceDark.ui_navbar ≠ false)
    ∧ Region.mainRegion ∈ shellRegions aliceDark :=
  c9_shell_regions stateAliceDark "/dashboard" aliceDark rfl rfl (by decide)

/-- Claim C10: every operation clears the error cell at its start
(`setError(null)` right after `setLoading(true)`), and consequently the
error after any completed operation is a function of that operation's
outcome alone, never of the error held before it. -/
theorem c10_error_reset (op : Op) (s1 s2 : SessionState) :
    (opStart s1).error = none
    ∧ (stepOp s1 op).error = (stepOp s2 op).error := by
  refine ⟨rfl, ?_⟩
  cases op with
  | fetchOp o => cases o <;> rfl
  | loginOp o =>
      cases o with
      | postFail e => rfl
      | postOk me => cases me <;> rfl
  | logoutOp o => cases o <;> rfl
